import Mathlib

/-!
Verification of `k8s_pod_monitor.py` (Kubernetes Pod Monitor Operator).

Shallow embedding: each Python function that the claims mention is
translated into a Lean definition; external effects (the Kubernetes watch
stream, the Slack webhook, the wall clock, the environment) are passed in
as explicit parameters or oracles.  The watch loop of
`PodMonitorOperator.run` is modelled as a trace-producing function over a
finite prefix of the stream of watch sessions, with the shared `running`
flag modelled as an oracle indexed by the number of reads performed so far
(the code reads the flag at the `while` top, once per event, and before
each backoff sleep).
-/

namespace PodMonitor

/-- Metadata of a typed pod object from the Kubernetes client
(`pod.metadata`): `name` (optional), `namespace` (called `nspace` here
because `namespace` is a Lean keyword), and the optional label map
(`pod.metadata.labels` is `None` or a dict; modelled as an association
list). -/
structure PodMetadata where
  name : Option String
  nspace : String
  labels : Option (List (String × String))
  deriving DecidableEq, Repr

/-- A typed pod object (`event['object']`). -/
structure Pod where
  metadata : PodMetadata
  deriving DecidableEq, Repr

/-- The dict form of the metadata inside `pod.to_dict()`: `name` may be
absent. -/
structure PodMetaDict where
  name : Option String
  deriving DecidableEq, Repr

/-- The dict form of a pod (`pod.to_dict()`): the `metadata` key may be
absent (`pod.get('metadata', {})`). -/
structure PodDict where
  metadata : Option PodMetaDict
  deriving DecidableEq, Repr

/-- `pod.to_dict()` on a typed pod object: the metadata and its name are
carried over. -/
def Pod.to_dict (p : Pod) : PodDict :=
  { metadata := some { name := p.metadata.name } }

/-- `PodMonitorOperator._extract_pod_name`:
`pod.get('metadata', {}).get('name', 'unknown')`. -/
def extract_pod_name (pod : PodDict) : String :=
  ((pod.metadata.getD { name := none }).name).getD "unknown"

/-- Python's `s.startswith(p)`, over the characters of the strings. -/
def strStartsWith (s p : String) : Bool :=
  p.data.isPrefixOf s.data

/-- `PodMonitorOperator._should_ignore_pod`: true when the pod's namespace
is `kube-system`, or when any label key starts with `k8s-app`
(`labels = pod.metadata.labels or {}` treats an absent or empty label map
as empty). -/
def should_ignore_pod (pod : Pod) : Bool :=
  if pod.metadata.nspace = "kube-system" then
    true
  else
    let labels := pod.metadata.labels.getD []
    if labels.any (fun kv => strStartsWith kv.1 "k8s-app") then
      true
    else
      false

/-- Result of `PodMonitorOperator._handle_pod_event`: the Slack messages it
sends (in order) and the `logger.info` line it always emits at the end. -/
structure HandleResult where
  sends : List String
  log : String
  deriving DecidableEq, Repr

/-- `PodMonitorOperator._handle_pod_event`: `ADDED`, `MODIFIED` and
`DELETED` events each send one fixed-template message built from the pod
name; any other event type sends nothing; in every case the handler logs
`Processed ... event for pod: ...` and returns normally. -/
def handle_pod_event (event_type : String) (pod : PodDict) : HandleResult :=
  let pod_name := extract_pod_name pod
  let sends :=
    if event_type = "ADDED" then
      ["Hello world from " ++ pod_name]
    else if event_type = "MODIFIED" then
      ["Things have changed, " ++ pod_name]
    else if event_type = "DELETED" then
      ["Goodbye world from, " ++ pod_name]
    else
      []
  { sends := sends
    log := "Processed " ++ event_type ++ " event for pod: " ++ pod_name }

/-- Outcome of the webhook POST performed by `SlackNotifier.send_message`:
either an HTTP response with a status code, or any exception raised by the
transport (connection error, timeout, ...). -/
inductive WebhookOutcome where
  | response (status_code : Nat)
  | transportError (msg : String)
  deriving DecidableEq, Repr

/-- `SlackNotifier.send_message`: returns `true` iff the POST of the
message succeeded with status 200; a non-200 status or any raised
exception is caught and reported as `false`.  The function is total: no
outcome makes it raise. -/
def send_message (message : String) (outcome : WebhookOutcome) : Bool :=
  match outcome with
  | WebhookOutcome.response code => if code = 200 then true else false
  | WebhookOutcome.transportError _ => false

/-- An HTTP response of the health handler. -/
structure HttpResponse where
  status : Nat
  content_type : Option String
  body : Option String
  deriving DecidableEq, Repr

/-- The JSON body written by `HealthHandler.do_GET` for `/health`
(`json.dumps` of the two-key dict, insertion order preserved). -/
def healthBody (timestamp : String) : String :=
  "\x7b\"status\": \"healthy\", \"timestamp\": \"" ++ timestamp ++ "\"\x7d"

/-- `HealthHandler.do_GET`: `/health` answers 200 with the JSON health
body built from the current UTC timestamp (passed in as the clock
reading); every other path answers 404 with no body.  The handler reads no
operator state, so the response cannot depend on the watch loop. -/
def do_GET (path : String) (timestamp : String) : HttpResponse :=
  if path = "/health" then
    { status := 200
      content_type := some "application/json"
      body := some (healthBody timestamp) }
  else
    { status := 404, content_type := none, body := none }

/-- One event yielded by `w.stream(...)`: its `type` string and its typed
pod `object`. -/
structure WatchEvent where
  type : String
  object : Pod
  deriving DecidableEq, Repr

/-- How one watch session (one `w.stream(...)` generator) ends after the
events it yielded: a clean end (server-side `timeout_seconds` expiry), an
`ApiException`, or any other exception raised mid-stream. -/
inductive SessionEnd where
  | clean
  | apiError (msg : String)
  | otherError (msg : String)
  deriving DecidableEq, Repr

/-- One watch session as observed at the stream boundary: the events it
yields in order, then how it ends. -/
structure WatchSession where
  events : List WatchEvent
  result : SessionEnd
  deriving DecidableEq, Repr

/-- Observable actions of `PodMonitorOperator.run`, in program order. -/
inductive Action where
  | log (msg : String)
  | logError (msg : String)
  | openSession
  | send (msg : String) (delivered : Bool)
  | sleepBackoff (seconds : Nat)
  | exitLoop
  deriving DecidableEq, Repr

/-- The actions the loop body performs for one stream event (given the
delivery oracle for webhook outcomes): nothing if the event filter rejects
the pod (`continue`); otherwise the sends of `_handle_pod_event` followed
by its log line. -/
def eventActions (deliver : String → Bool) (e : WatchEvent) : List Action :=
  if should_ignore_pod e.object then
    []
  else
    let h := handle_pod_event e.type e.object.to_dict
    h.sends.map (fun m => Action.send m (deliver m)) ++ [Action.log h.log]

/-- The `for event in w.stream(...)` body of `PodMonitorOperator.run`.
`flag k` is the value of `self.running` at its `k`-th read; the loop reads
the flag once at the top of each event iteration (`if not self.running:
break`).  Returns the actions performed, the read counter afterwards, and
whether the loop broke out because the flag was false (in which case the
remaining events, and any pending stream error, are never seen). -/
def processSession (flag : Nat → Bool) (deliver : String → Bool) :
    Nat → List WatchEvent → List Action × Nat × Bool
  | k, [] => ([], k, false)
  | k, e :: rest =>
    if flag k then
      let tail := processSession flag deliver (k + 1) rest
      (eventActions deliver e ++ tail.1, tail.2)
    else
      ([], k + 1, true)

/-- The `while self.running` loop of `PodMonitorOperator.run`, observed
over a finite prefix of watch sessions supplied by the cluster API.
At the loop top the flag is read; if false the loop exits (`exitLoop`
stands for falling through to the `finally` block).  Otherwise the loop
logs, opens the next session, processes its events, and handles its end:
a clean end goes straight back to the loop top; an `ApiException` or any
other exception is logged at error level, then the flag is read once more
and only if it is still true does the loop sleep the fixed 5-second
backoff; either way control returns to the loop top.  When the supplied
session prefix is exhausted the observation simply stops. -/
def runFrom (flag : Nat → Bool) (deliver : String → Bool) :
    Nat → List WatchSession → List Action
  | _, [] => []
  | k, s :: rest =>
    if flag k then
      let pre := [Action.log "Starting to watch pod events...", Action.openSession]
      let r := processSession flag deliver (k + 1) s.events
      if r.2.2 then
        pre ++ r.1 ++ runFrom flag deliver r.2.1 rest
      else
        match s.result with
        | SessionEnd.clean =>
          pre ++ r.1 ++ runFrom flag deliver r.2.1 rest
        | SessionEnd.apiError m =>
          pre ++ r.1 ++ [Action.logError ("Kubernetes API error: " ++ m)] ++
            (if flag r.2.1 then [Action.sleepBackoff 5] else []) ++
            runFrom flag deliver (r.2.1 + 1) rest
        | SessionEnd.otherError m =>
          pre ++ r.1 ++ [Action.logError ("Unexpected error: " ++ m)] ++
            (if flag r.2.1 then [Action.sleepBackoff 5] else []) ++
            runFrom flag deliver (r.2.1 + 1) rest
    else
      [Action.exitLoop]

/-- The messages handed to `SlackNotifier.send_message`, in order, within
a list of actions. -/
def sentMessages (acts : List Action) : List String :=
  acts.filterMap (fun a =>
    match a with
    | Action.send m _ => some m
    | _ => none)

/-- Erase the delivery outcome recorded on a `send` action, keeping
everything else; used to state that the loop's behaviour does not depend
on whether deliveries succeed. -/
def actionShape : Action → Action
  | Action.send m _ => Action.send m true
  | a => a

/-- The configuration an operator holds after construction succeeds. -/
structure OperatorCfg where
  nspace : String
  webhook_url : String
  deriving DecidableEq, Repr

/-- `PodMonitorOperator.__init__` (its fallible part): reads
`SLACK_WEBHOOK_URL` from the environment (`env` maps a variable name to
its value, `none` when unset); `if not webhook_url` raises, so an absent
variable and an empty string both raise the configuration `ValueError`;
then `_init_kubernetes_client` runs, whose outcome (in-cluster config,
local kubeconfig fallback, or failure) is supplied as `kube`.  On success
the operator holds the namespace it was constructed with and the webhook
URL. -/
def operatorInit (env : String → Option String) (kube : Except String Unit)
    (ns : String) : Except String OperatorCfg :=
  match env "SLACK_WEBHOOK_URL" with
  | none => Except.error "SLACK_WEBHOOK_URL environment variable is required"
  | some url =>
    if url = "" then
      Except.error "SLACK_WEBHOOK_URL environment variable is required"
    else
      match kube with
      | Except.error e => Except.error e
      | Except.ok _ => Except.ok { nspace := ns, webhook_url := url }

/-- The startup part of `main`: reads `NAMESPACE` with default
`"default"` and constructs the operator.  On error nothing runs: the
exception propagates out of `main` (it is re-raised after logging), so the
process exits non-zero; on success `operator.run()` would start. -/
def mainStartup (env : String → Option String) (kube : Except String Unit) :
    Except String OperatorCfg :=
  let ns := (env "NAMESPACE").getD "default"
  operatorInit env kube ns

/-- The process exit class of `main` when startup fails: a re-raised
exception makes Python exit non-zero (1), a successful startup hands
control to `run`. -/
def mainExitOnStartupFailure (env : String → Option String)
    (kube : Except String Unit) : Option Nat :=
  match mainStartup env kube with
  | Except.error _ => some 1
  | Except.ok _ => none

/-- Lifecycle phases of a `PodMonitorOperator` instance, as driven by
`main`: constructed (`__init__` sets `self.running = False`), running
(`run` sets `self.running = True` once at entry), stopped (`stop` sets
`self.running = False`, reached via the `finally` block or an external
`stop()` call). -/
inductive OpPhase where
  | constructed
  | runningPhase
  | stopped
  deriving DecidableEq, Repr

/-- The value of `self.running` in each lifecycle phase. -/
def runningFlag : OpPhase → Bool
  | OpPhase.constructed => false
  | OpPhase.runningPhase => true
  | OpPhase.stopped => false

/-- The writes/steps the source performs on the lifecycle: `run` is
entered once from the constructed state (`main` calls `operator.run()`
exactly once per instance); while running, loop iterations leave the
phase unchanged; `stop` moves to stopped; repeated `stop()` calls stay
stopped.  No code path ever sets `self.running = True` again. -/
inductive phaseStep : OpPhase → OpPhase → Prop
  | start : phaseStep OpPhase.constructed OpPhase.runningPhase
  | iterate : phaseStep OpPhase.runningPhase OpPhase.runningPhase
  | stopFromRun : phaseStep OpPhase.runningPhase OpPhase.stopped
  | stopAgain : phaseStep OpPhase.stopped OpPhase.stopped

/-- Number of true-to-false transitions of the running flag along a phase
history. -/
def countTrueFalse : List OpPhase → Nat
  | p :: q :: rest =>
    (if runningFlag p && !(runningFlag q) then 1 else 0) + countTrueFalse (q :: rest)
  | _ => 0

/-- Monotonicity of the shared running flag as seen through its reads:
once a read returns false, every later read returns false. -/
def FlagMono (flag : Nat → Bool) : Prop :=
  ∀ i j, i ≤ j → flag i = false → flag j = false

/-- The spec's fixed message templates, as a total map from the stream's
event type (the spec's kinds Created/Updated/Removed arrive as
`ADDED`/`MODIFIED`/`DELETED`) and the pod name to the notification text;
used to compare the loop's sends against the spec's wording. -/
def specMessageFor (kind : String) (name : String) : String :=
  if kind = "ADDED" then "Hello world from " ++ name
  else if kind = "MODIFIED" then "Things have changed, " ++ name
  else if kind = "DELETED" then "Goodbye world from, " ++ name
  else ""

/-! ### Helper lemmas -/

lemma sentMessages_append (a b : List Action) :
    sentMessages (a ++ b) = sentMessages a ++ sentMessages b := by
  simp [sentMessages, List.filterMap_append]

lemma eventActions_shape (deliver : String → Bool) (e : WatchEvent) (a : Action)
    (ha : a ∈ eventActions deliver e) :
    (∃ m b, a = Action.send m b) ∨ (∃ s, a = Action.log s) := by
  unfold eventActions at ha
  by_cases hig : should_ignore_pod e.object
  · simp [hig] at ha
  · simp [hig] at ha
    rcases ha with ⟨m, _, rfl⟩ | rfl
    · exact Or.inl ⟨m, _, rfl⟩
    · exact Or.inr ⟨_, rfl⟩

lemma processSession_all_true (flag : Nat → Bool) (deliver : String → Bool)
    (k : Nat) (evts : List WatchEvent)
    (h : ∀ i, i < evts.length → flag (k + i) = true) :
    processSession flag deliver k evts =
      ((evts.map (eventActions deliver)).flatten, k + evts.length, false) := by
  induction evts generalizing k with
  | nil => simp [processSession]
  | cons e rest ih =>
    have h0 : flag k = true := by simpa using h 0 (by simp)
    have hrest : ∀ i, i < rest.length → flag (k + 1 + i) = true := by
      intro i hi
      have := h (i + 1) (by simp; omega)
      simpa [Nat.add_assoc, Nat.add_comm, Nat.add_left_comm] using this
    simp [processSession, h0, ih (k + 1) hrest]
    omega

lemma processSession_break (flag : Nat → Bool) (deliver : String → Bool)
    (k : Nat) (evts : List WatchEvent) (i : Nat)
    (hi : i < evts.length)
    (htrue : ∀ j, j < i → flag (k + j) = true)
    (hfalse : flag (k + i) = false) :
    processSession flag deliver k evts =
      (((evts.take i).map (eventActions deliver)).flatten, k + i + 1, true) := by
  induction evts generalizing k i with
  | nil => simp at hi
  | cons e rest ih =>
    cases i with
    | zero =>
      have h0 : flag k = false := by simpa using hfalse
      simp [processSession, h0]
    | succ n =>
      have h0 : flag k = true := by simpa using htrue 0 (by omega)
      have hn : n < rest.length := by simp at hi; omega
      have ht : ∀ j, j < n → flag (k + 1 + j) = true := by
        intro j hj
        have := htrue (j + 1) (by omega)
        simpa [Nat.add_assoc, Nat.add_comm, Nat.add_left_comm] using this
      have hf : flag (k + 1 + n) = false := by
        have := hfalse
        simpa [Nat.add_assoc, Nat.add_comm, Nat.add_left_comm] using this
      simp [processSession, h0, ih (k + 1) n hn ht hf]
      omega

lemma runFrom_flagFalse (flag : Nat → Bool) (deliver : String → Bool)
    (k : Nat) (ss : List WatchSession) (h : flag k = false) :
    ∀ a ∈ runFrom flag deliver k ss, a = Action.exitLoop := by
  cases ss with
  | nil => simp [runFrom]
  | cons s rest => simp [runFrom, h]

lemma runFrom_apiError_eq (flag : Nat → Bool) (deliver : String → Bool)
    (k : Nat) (evts : List WatchEvent) (m : String) (rest : List WatchSession)
    (h : ∀ i, i ≤ evts.length → flag (k + i) = true) :
    runFrom flag deliver k ({ events := evts, result := SessionEnd.apiError m } :: rest) =
      [Action.log "Starting to watch pod events...", Action.openSession] ++
      (evts.map (eventActions deliver)).flatten ++
      [Action.logError ("Kubernetes API error: " ++ m)] ++
      (if flag (k + 1 + evts.length) then [Action.sleepBackoff 5] else []) ++
      runFrom flag deliver (k + 1 + evts.length + 1) rest := by
  have h0 : flag k = true := by simpa using h 0 (by omega)
  have hev : ∀ i, i < evts.length → flag (k + 1 + i) = true := by
    intro i hi
    have := h (i + 1) (by omega)
    simpa [Nat.add_assoc, Nat.add_comm, Nat.add_left_comm] using this
  have hps := processSession_all_true flag deliver (k + 1) evts hev
  simp [runFrom, h0, hps, Nat.add_assoc, Nat.add_comm, Nat.add_left_comm]

lemma runFrom_otherError_eq (flag : Nat → Bool) (deliver : String → Bool)
    (k : Nat) (evts : List WatchEvent) (m : String) (rest : List WatchSession)
    (h : ∀ i, i ≤ evts.length → flag (k + i) = true) :
    runFrom flag deliver k ({ events := evts, result := SessionEnd.otherError m } :: rest) =
      [Action.log "Starting to watch pod events...", Action.openSession] ++
      (evts.map (eventActions deliver)).flatten ++
      [Action.logError ("Unexpected error: " ++ m)] ++
      (if flag (k + 1 + evts.length) then [Action.sleepBackoff 5] else []) ++
      runFrom flag deliver (k + 1 + evts.length + 1) rest := by
  have h0 : flag k = true := by simpa using h 0 (by omega)
  have hev : ∀ i, i < evts.length → flag (k + 1 + i) = true := by
    intro i hi
    have := h (i + 1) (by omega)
    simpa [Nat.add_assoc, Nat.add_comm, Nat.add_left_comm] using this
  have hps := processSession_all_true flag deliver (k + 1) evts hev
  simp [runFrom, h0, hps, Nat.add_assoc, Nat.add_comm, Nat.add_left_comm]

lemma flatten_eventActions_shape (deliver : String → Bool)
    (evts : List WatchEvent) (a : Action)
    (ha : a ∈ (evts.map (eventActions deliver)).flatten) :
    (∃ m b, a = Action.send m b) ∨ (∃ s, a = Action.log s) := by
  rw [List.mem_flatten] at ha
  rcases ha with ⟨l, hl, hal⟩
  rw [List.mem_map] at hl
  rcases hl with ⟨e, _, rfl⟩
  exact eventActions_shape deliver e a hal

lemma eventActions_deliver_indep (d₁ d₂ : String → Bool) (e : WatchEvent) :
    (eventActions d₁ e).map actionShape = (eventActions d₂ e).map actionShape := by
  unfold eventActions
  by_cases hig : should_ignore_pod e.object <;>
    simp [hig, actionShape, List.map_map, Function.comp]

lemma processSession_deliver_indep (flag : Nat → Bool) (d₁ d₂ : String → Bool)
    (k : Nat) (evts : List WatchEvent) :
    (processSession flag d₁ k evts).1.map actionShape =
      (processSession flag d₂ k evts).1.map actionShape
    ∧ (processSession flag d₁ k evts).2 = (processSession flag d₂ k evts).2 := by
  induction evts generalizing k with
  | nil => simp [processSession]
  | cons e rest ih =>
    cases hf : flag k with
    | false => simp [processSession, hf]
    | true =>
      have := ih (k + 1)
      simp [processSession, hf, List.map_append, this.1, this.2,
        eventActions_deliver_indep d₁ d₂ e]

lemma handle_sends_recognized (t : String) (pod : PodDict)
    (h : t = "ADDED" ∨ t = "MODIFIED" ∨ t = "DELETED") :
    (handle_pod_event t pod).sends = [specMessageFor t (extract_pod_name pod)] := by
  rcases h with rfl | rfl | rfl <;> rfl

lemma handle_sends_len (t : String) (p : PodDict) :
    ((handle_pod_event t p).sends).length ≤ 1 := by
  unfold handle_pod_event
  by_cases h1 : t = "ADDED"
  · simp [h1]
  · by_cases h2 : t = "MODIFIED"
    · simp [h1, h2]
    · by_cases h3 : t = "DELETED" <;> simp [h1, h2, h3]

lemma sentMessages_sends (deliver : String → Bool) (l : List String) (s : String) :
    sentMessages (l.map (fun m => Action.send m (deliver m)) ++ [Action.log s]) = l := by
  induction l with
  | nil => rfl
  | cons x xs ih => simpa [sentMessages] using ih

lemma sentMessages_flatten (deliver : String → Bool) :
    ∀ (evts : List WatchEvent),
      (∀ e ∈ evts, e.type = "ADDED" ∨ e.type = "MODIFIED" ∨ e.type = "DELETED") →
      sentMessages ((evts.map (eventActions deliver)).flatten) =
        (evts.filter (fun e => !(should_ignore_pod e.object))).map
          (fun e => specMessageFor e.type (extract_pod_name e.object.to_dict)) := by
  intro evts
  induction evts with
  | nil => intro _; rfl
  | cons e rest ih =>
    intro hrec
    have he := hrec e (List.mem_cons_self e rest)
    have hrest := ih (fun e' h' => hrec e' (List.mem_cons_of_mem e h'))
    by_cases hig : should_ignore_pod e.object
    · have h0 : eventActions deliver e = [] := by simp [eventActions, hig]
      rw [List.map_cons, List.flatten_cons, h0, List.nil_append, hrest,
        List.filter_cons_of_neg (by simp [hig])]
    · have hev : eventActions deliver e =
          ((handle_pod_event e.type e.object.to_dict).sends).map
            (fun m => Action.send m (deliver m)) ++
          [Action.log (handle_pod_event e.type e.object.to_dict).log] := by
        simp [eventActions, hig]
      rw [List.map_cons, List.flatten_cons, hev, List.append_assoc,
        sentMessages_append, sentMessages_append, hrest,
        List.filter_cons_of_pos (by simp [hig]),
        handle_sends_recognized e.type e.object.to_dict he]
      simp [sentMessages]

/-! ### Claim theorems -/

/-- C1: any error raised while reading from the stream — `ApiException` or
any other exception — is logged at error level, followed by the flat
5-second backoff sleep exactly when the running flag is still true at the
post-error check, after which the loop returns to its top and (if still
running) opens a new watch session; when the flag is false at that point
no sleep happens and the remaining trace is at most the loop exit — both
error kinds get the identical flat delay, and both are consumed by the
loop rather than propagating out of `run`. -/
theorem C1_stream_error_backoff :
    ∀ (flag : Nat → Bool) (deliver : String → Bool) (k : Nat)
      (evts : List WatchEvent) (m : String) (rest : List WatchSession),
      (∀ i, i ≤ evts.length → flag (k + i) = true) →
      (runFrom flag deliver k
          ({ events := evts, result := SessionEnd.apiError m } :: rest) =
        [Action.log "Starting to watch pod events...", Action.openSession] ++
        (evts.map (eventActions deliver)).flatten ++
        [Action.logError ("Kubernetes API error: " ++ m)] ++
        (if flag (k + 1 + evts.length) then [Action.sleepBackoff 5] else []) ++
        runFrom flag deliver (k + 1 + evts.length + 1) rest)
      ∧ (runFrom flag deliver k
          ({ events := evts, result := SessionEnd.otherError m } :: rest) =
        [Action.log "Starting to watch pod events...", Action.openSession] ++
        (evts.map (eventActions deliver)).flatten ++
        [Action.logError ("Unexpected error: " ++ m)] ++
        (if flag (k + 1 + evts.length) then [Action.sleepBackoff 5] else []) ++
        runFrom flag deliver (k + 1 + evts.length + 1) rest)
      ∧ (FlagMono flag → flag (k + 1 + evts.length) = false →
          ∀ a ∈ runFrom flag deliver (k + 1 + evts.length + 1) rest,
            a = Action.exitLoop) := by
  intro flag deliver k evts m rest h
  refine ⟨runFrom_apiError_eq flag deliver k evts m rest h,
          runFrom_otherError_eq flag deliver k evts m rest h, ?_⟩
  intro hmono hf
  exact runFrom_flagFalse flag deliver _ rest (hmono _ _ (by omega) hf)

/-- C1 witness: an `ApiException` with no prior events is logged and
followed by the 5-second backoff while the flag stays true. -/
theorem C1_stream_error_backoff_witness :
    runFrom (fun _ => true) (fun _ => true) 0
        [{ events := [], result := SessionEnd.apiError "boom" }] =
      [Action.log "Starting to watch pod events...", Action.openSession,
       Action.logError "Kubernetes API error: boom", Action.sleepBackoff 5] := by
  have h := (C1_stream_error_backoff (fun _ => true) (fun _ => true) 0 [] "boom" []
    (fun i _ => rfl)).1
  simpa using h

/-- C2: with the running flag true throughout, the messages handed to the
notifier are exactly the events that pass the filter, in stream order,
each mapped to its fixed template message; every event produces at most
one send, and each event's actions (its send included) precede all actions
of the events after it. -/
theorem C2_notification_ordering :
    ∀ (deliver : String → Bool) (k : Nat) (evts : List WatchEvent),
      (∀ e ∈ evts, e.type = "ADDED" ∨ e.type = "MODIFIED" ∨ e.type = "DELETED") →
      sentMessages (processSession (fun _ => true) deliver k evts).1 =
        (evts.filter (fun e => !(should_ignore_pod e.object))).map
          (fun e => specMessageFor e.type (extract_pod_name e.object.to_dict))
      ∧ (∀ (t : String) (p : PodDict), ((handle_pod_event t p).sends).length ≤ 1)
      ∧ (∀ (e : WatchEvent) (rest : List WatchEvent) (j : Nat),
          (processSession (fun _ => true) deliver j (e :: rest)).1 =
            eventActions deliver e ++
              (processSession (fun _ => true) deliver (j + 1) rest).1) := by
  intro deliver k evts hrec
  refine ⟨?_, fun t p => handle_sends_len t p, fun e rest j => by simp [processSession]⟩
  rw [processSession_all_true (fun _ => true) deliver k evts (fun i _ => rfl)]
  exact sentMessages_flatten deliver evts hrec

/-- C2 witness: two recognized events for distinct pods, one of them
filtered out (kube-system), send exactly the one template message of the
surviving event. -/
theorem C2_notification_ordering_witness :
    sentMessages (processSession (fun _ => true) (fun _ => true) 0
      [{ type := "ADDED",
         object := { metadata :=
           { name := some "web-1", nspace := "kube-system", labels := none } } },
       { type := "DELETED",
         object := { metadata :=
           { name := some "web-2", nspace := "default", labels := none } } }]).1 =
      ["Goodbye world from, web-2"] := by
  have h := (C2_notification_ordering (fun _ => true) 0
    [{ type := "ADDED",
       object := { metadata :=
         { name := some "web-1", nspace := "kube-system", labels := none } } },
     { type := "DELETED",
       object := { metadata :=
         { name := some "web-2", nspace := "default", labels := none } } }]
    (by intro e he; fin_cases he <;> simp)).1
  rw [h]
  rfl

/-- C3: `_should_ignore_pod` returns true iff the pod's namespace is
`kube-system` or some label key starts with `k8s-app`; pods with an absent
(`None`) or empty label map behave identically, reducing to the namespace
test alone, and the function is total (never an error). -/
theorem C3_should_ignore_pod_iff :
    ∀ (pod : Pod) (n : Option String) (ns : String),
      (should_ignore_pod pod = true ↔
        pod.metadata.nspace = "kube-system" ∨
        ∃ kv ∈ pod.metadata.labels.getD [], strStartsWith kv.1 "k8s-app" = true)
      ∧ should_ignore_pod { metadata := { name := n, nspace := ns, labels := none } } =
          decide (ns = "kube-system")
      ∧ should_ignore_pod { metadata := { name := n, nspace := ns, labels := some [] } } =
          decide (ns = "kube-system") := by
  intro pod n ns
  refine ⟨?_, ?_, ?_⟩
  · unfold should_ignore_pod
    by_cases hns : pod.metadata.nspace = "kube-system"
    · simp [hns]
    · simp [hns, List.any_eq_true]
  · unfold should_ignore_pod
    by_cases hns : ns = "kube-system" <;> simp [hns]
  · unfold should_ignore_pod
    by_cases hns : ns = "kube-system" <;> simp [hns]

/-- C4: `SlackNotifier.send_message` reports `true` exactly on the
webhook's success status (HTTP 200) and `false` on every other status
(in particular 500) and on every transport failure — it is a total
function, so no outcome raises; moreover the watch loop's behaviour (which
events it processes, which messages it attempts, its flag reads and break
status) is identical whatever the delivery outcomes, so a failed delivery
neither interrupts iteration nor causes a retry. -/
theorem C4_send_message_delivery :
    ∀ (msg : String),
      (∀ o, send_message msg o = true ↔ o = WebhookOutcome.response 200)
      ∧ send_message msg (WebhookOutcome.response 500) = false
      ∧ (∀ em, send_message msg (WebhookOutcome.transportError em) = false)
      ∧ (∀ (flag : Nat → Bool) (d₁ d₂ : String → Bool) (k : Nat)
          (evts : List WatchEvent),
          (processSession flag d₁ k evts).1.map actionShape =
            (processSession flag d₂ k evts).1.map actionShape
          ∧ (processSession flag d₁ k evts).2 = (processSession flag d₂ k evts).2) := by
  intro msg
  refine ⟨?_, rfl, fun em => rfl, ?_⟩
  · intro o
    cases o with
    | response code =>
      by_cases h : code = 200 <;> simp [send_message, h]
    | transportError em => simp [send_message]
  · intro flag d₁ d₂ k evts
    exact processSession_deliver_indep flag d₁ d₂ k evts

/-- C5: the notification text is the fixed template for each event kind
with the pod name substituted: `ADDED` (Created), `MODIFIED` (Updated) and
`DELETED` (Removed) produce exactly the three template strings. -/
theorem C5_message_templates :
    ∀ name : String,
      (handle_pod_event "ADDED" { metadata := some { name := some name } }).sends =
        ["Hello world from " ++ name]
      ∧ (handle_pod_event "MODIFIED" { metadata := some { name := some name } }).sends =
        ["Things have changed, " ++ name]
      ∧ (handle_pod_event "DELETED" { metadata := some { name := some name } }).sends =
        ["Goodbye world from, " ++ name] :=
  fun _ => ⟨rfl, rfl, rfl⟩

/-- C9: `HealthHandler.do_GET` answers `/health` with status 200 and the
JSON body carrying status `healthy` and the supplied UTC timestamp, and
answers any other path with 404; the handler reads no watch-loop state, so
the answer is the same while the loop is mid-backoff. -/
theorem C9_health_endpoint :
    ∀ (path ts : String),
      (do_GET "/health" ts).status = 200
      ∧ (do_GET "/health" ts).body = some (healthBody ts)
      ∧ (do_GET "/health" ts).content_type = some "application/json"
      ∧ healthBody ts =
          "\x7b\"status\": \"healthy\", \"timestamp\": \"" ++ ts ++ "\"\x7d"
      ∧ (path ≠ "/health" →
          (do_GET path ts).status = 404 ∧ (do_GET path ts).body = none) := by
  intro path ts
  refine ⟨rfl, rfl, rfl, rfl, ?_⟩
  intro h
  simp [do_GET, h]

/-- C9 witness: a non-health path gets 404. -/
theorem C9_health_endpoint_witness :
    (do_GET "/nope" "2026-10-12T00:00:00").status = 404 ∧
    (do_GET "/nope" "2026-10-12T00:00:00").body = none :=
  (C9_health_endpoint "/nope" "2026-10-12T00:00:00").2.2.2.2 (by decide)

/-- C10: an event whose type is none of `ADDED`/`MODIFIED`/`DELETED`
causes no send at all, yet the handler completes normally and still logs
the `Processed ...` line; in the loop such an event (when not filtered)
contributes only its log action and processing continues with the next
event. -/
theorem C10_unknown_event_type :
    ∀ (t : String) (pod : PodDict) (deliver : String → Bool) (k : Nat)
      (e : WatchEvent) (rest : List WatchEvent),
      t ≠ "ADDED" → t ≠ "MODIFIED" → t ≠ "DELETED" →
      (handle_pod_event t pod).sends = []
      ∧ (handle_pod_event t pod).log =
          "Processed " ++ t ++ " event for pod: " ++ extract_pod_name pod
      ∧ (e.type = t → should_ignore_pod e.object = false →
          processSession (fun _ => true) deliver k (e :: rest) =
            (Action.log ("Processed " ++ t ++ " event for pod: " ++
                extract_pod_name e.object.to_dict) ::
              (processSession (fun _ => true) deliver (k + 1) rest).1,
             (processSession (fun _ => true) deliver (k + 1) rest).2)) := by
  intro t pod deliver k e rest h1 h2 h3
  refine ⟨?_, ?_, ?_⟩
  · simp [handle_pod_event, h1, h2, h3]
  · simp [handle_pod_event]
  · intro ht hig
    simp [processSession, eventActions, hig, ht, handle_pod_event, h1, h2, h3]

/-- C10 witness: a `BOOKMARK` event for a pod named `p` sends nothing. -/
theorem C10_unknown_event_type_witness :
    (handle_pod_event "BOOKMARK" { metadata := some { name := some "p" } }).sends = [] :=
  (C10_unknown_event_type "BOOKMARK" { metadata := some { name := some "p" } }
    (fun _ => true) 0
    { type := "BOOKMARK",
      object := { metadata := { name := some "p", nspace := "default", labels := none } } }
    [] (by decide) (by decide) (by decide)).1

/-- C6: once the running flag reads false, the loop terminates within its
current wait: (a) at the loop top the whole remaining trace is at most the
loop exit — no further session, no backoff, no send; (b) at the per-event
check the session breaks immediately, the remaining events of the session
are never handled; (c) when the flag goes false during error handling the
backoff sleep is skipped and no further session is opened. -/
theorem C6_stop_terminates :
    ∀ (flag : Nat → Bool) (deliver : String → Bool),
      FlagMono flag →
      (∀ (k : Nat) (ss : List WatchSession), flag k = false →
        ∀ a ∈ runFrom flag deliver k ss, a = Action.exitLoop)
      ∧ (∀ (k : Nat) (evts : List WatchEvent) (i : Nat),
          i < evts.length → (∀ j, j < i → flag (k + j) = true) →
          flag (k + i) = false →
          processSession flag deliver k evts =
            (((evts.take i).map (eventActions deliver)).flatten, k + i + 1, true))
      ∧ (∀ (k : Nat) (evts : List WatchEvent) (m : String)
          (rest : List WatchSession),
          (∀ i, i ≤ evts.length → flag (k + i) = true) →
          flag (k + 1 + evts.length) = false →
          Action.sleepBackoff 5 ∉
            runFrom flag deliver k
              ({ events := evts, result := SessionEnd.apiError m } :: rest)
          ∧ Action.openSession ∉
              runFrom flag deliver (k + 1 + evts.length + 1) rest) := by
  intro flag deliver hmono
  refine ⟨fun k ss hk => runFrom_flagFalse flag deliver k ss hk,
          fun k evts i hi ht hf => processSession_break flag deliver k evts i hi ht hf,
          ?_⟩
  intro k evts m rest h hf
  have hcont : ∀ a ∈ runFrom flag deliver (k + 1 + evts.length + 1) rest,
      a = Action.exitLoop :=
    runFrom_flagFalse flag deliver _ rest (hmono _ _ (by omega) hf)
  constructor
  · rw [runFrom_apiError_eq flag deliver k evts m rest h]
    intro hmem
    rcases List.mem_append.mp hmem with h1 | hcontm
    · rcases List.mem_append.mp h1 with h2 | hif
      · rcases List.mem_append.mp h2 with h3 | herr
        · rcases List.mem_append.mp h3 with hpre | hfl
          · simp at hpre
          · rcases flatten_eventActions_shape deliver evts _ hfl with ⟨_, _, h4⟩ | ⟨_, h4⟩ <;>
              exact Action.noConfusion h4
        · simp at herr
      · rw [hf] at hif
        simp at hif
    · exact Action.noConfusion (hcont _ hcontm)
  · intro hmem
    exact Action.noConfusion (hcont _ hmem)

/-- C6 witness: with a flag that goes false after the first two reads, a
session that would yield an event and then fail is cut short: the loop
breaks at the per-event check and exits without a backoff sleep. -/
theorem C6_stop_terminates_witness :
    processSession (fun i => decide (i < 1)) (fun _ => true) 1
        [{ type := "ADDED",
           object := { metadata :=
             { name := some "web-1", nspace := "default", labels := none } } }] =
      ([], 2, true) := by
  have h := ((C6_stop_terminates (fun i => decide (i < 1)) (fun _ => true)
    (by intro i j hij hi; simp at hi ⊢; omega)).2.1) 1
    [{ type := "ADDED",
       object := { metadata :=
         { name := some "web-1", nspace := "default", labels := none } } }]
    0 (by decide) (by omega) (by decide)
  simpa using h

lemma phaseStep_falseTrue {a b : OpPhase} (h : phaseStep a b)
    (ha : runningFlag a = false) (hb : runningFlag b = true) :
    a = OpPhase.constructed := by
  cases h <;> simp [runningFlag] at ha hb ⊢

lemma chain_stopped : ∀ (rest : List OpPhase),
    List.Chain' phaseStep (OpPhase.stopped :: rest) →
    countTrueFalse (OpPhase.stopped :: rest) = 0 := by
  intro rest
  induction rest with
  | nil => intro _; rfl
  | cons q rs ih =>
    intro h
    have hstep : phaseStep OpPhase.stopped q := (List.chain'_cons.mp h).1
    have hq : q = OpPhase.stopped := by cases hstep; rfl
    subst hq
    have h0 := ih (List.chain'_cons.mp h).2
    simp [countTrueFalse, runningFlag, h0]

lemma chain_running : ∀ (rest : List OpPhase),
    List.Chain' phaseStep (OpPhase.runningPhase :: rest) →
    countTrueFalse (OpPhase.runningPhase :: rest) ≤ 1
    ∧ ((OpPhase.runningPhase :: rest).getLast? = some OpPhase.stopped →
        countTrueFalse (OpPhase.runningPhase :: rest) = 1) := by
  intro rest
  induction rest with
  | nil =>
    intro _
    refine ⟨by simp [countTrueFalse], ?_⟩
    intro h
    simp [List.getLast?] at h
  | cons q rs ih =>
    intro h
    have hstep := (List.chain'_cons.mp h).1
    have htail := (List.chain'_cons.mp h).2
    cases hstep with
    | iterate =>
      have hr := ih htail
      refine ⟨?_, ?_⟩
      · simpa [countTrueFalse, runningFlag] using hr.1
      · intro hlast
        have hl : (OpPhase.runningPhase :: rs).getLast? = some OpPhase.stopped := by
          simpa [List.getLast?_cons_cons] using hlast
        simpa [countTrueFalse, runningFlag] using hr.2 hl
    | stopFromRun =>
      have h0 := chain_stopped rs htail
      refine ⟨?_, fun _ => ?_⟩ <;> simp [countTrueFalse, runningFlag, h0]

lemma chain_constructed : ∀ (rest : List OpPhase),
    List.Chain' phaseStep (OpPhase.constructed :: rest) →
    countTrueFalse (OpPhase.constructed :: rest) ≤ 1
    ∧ ((OpPhase.constructed :: rest).getLast? = some OpPhase.stopped →
        countTrueFalse (OpPhase.constructed :: rest) = 1) := by
  intro rest h
  cases rest with
  | nil =>
    refine ⟨by simp [countTrueFalse], ?_⟩
    intro hl
    simp [List.getLast?] at hl
  | cons q rs =>
    have hstep := (List.chain'_cons.mp h).1
    have htail := (List.chain'_cons.mp h).2
    cases hstep with
    | start =>
      have hr := chain_running rs htail
      refine ⟨?_, ?_⟩
      · simpa [countTrueFalse, runningFlag] using hr.1
      · intro hlast
        have hl : (OpPhase.runningPhase :: rs).getLast? = some OpPhase.stopped := by
          simpa [List.getLast?_cons_cons] using hlast
        simpa [countTrueFalse, runningFlag] using hr.2 hl

/-- C7: along every execution of the operator lifecycle (constructed at
startup, `run` entered once, `stop` possibly repeated), the running flag
makes at most one true-to-false transition, exactly one when the history
ends shut down, and the only false-to-true step is the initial `run`
entry from the constructed state — never false back to true afterwards. -/
theorem C7_running_flag_monotone :
    ∀ (path : List OpPhase),
      List.Chain' phaseStep path →
      path.head? = some OpPhase.constructed →
      countTrueFalse path ≤ 1
      ∧ (path.getLast? = some OpPhase.stopped → countTrueFalse path = 1)
      ∧ (∀ i (hi : i < path.length - 1),
          runningFlag (path.get ⟨i, by omega⟩) = false →
          runningFlag (path.get ⟨i + 1, by omega⟩) = true →
          path.get ⟨i, by omega⟩ = OpPhase.constructed) := by
  intro path hchain hhead
  have hsteps := fun i hi => List.chain'_iff_get.mp hchain i hi
  cases path with
  | nil => simp at hhead
  | cons p rest =>
    have hp : p = OpPhase.constructed := by simpa using hhead
    subst hp
    have hc := chain_constructed rest hchain
    exact ⟨hc.1, hc.2, fun i hi h1 h2 => phaseStep_falseTrue (hsteps i hi) h1 h2⟩

/-- C7 witness: the canonical lifecycle constructed → running → stopped
has exactly one true-to-false transition. -/
theorem C7_running_flag_monotone_witness :
    countTrueFalse [OpPhase.constructed, OpPhase.runningPhase, OpPhase.stopped] = 1 := by
  have hchain : List.Chain' phaseStep
      [OpPhase.constructed, OpPhase.runningPhase, OpPhase.stopped] := by
    refine List.chain'_cons.mpr ⟨phaseStep.start, ?_⟩
    refine List.chain'_cons.mpr ⟨phaseStep.stopFromRun, ?_⟩
    exact List.chain'_singleton _
  exact (C7_running_flag_monotone _ hchain rfl).2.1 rfl

lemma operatorInit_ok (env : String → Option String) (kube : Except String Unit)
    (ns : String) (cfg : OperatorCfg)
    (h : operatorInit env kube ns = Except.ok cfg) : cfg.nspace = ns := by
  cases hu : env "SLACK_WEBHOOK_URL" with
  | none => simp [operatorInit, hu] at h
  | some url =>
    by_cases he : url = ""
    · simp [operatorInit, hu, he] at h
    · cases kube with
      | error e => simp [operatorInit, hu, he] at h
      | ok u =>
        simp [operatorInit, hu, he] at h
        simp [← h]

/-- C8: construction fails fast with the configuration `ValueError` when
`SLACK_WEBHOOK_URL` is unset — `main` then re-raises, so the process exits
non-zero and nothing runs — and when `NAMESPACE` is unset any successful
startup uses the namespace `default`. -/
theorem C8_config_validation :
    ∀ (env : String → Option String) (kube : Except String Unit),
      (env "SLACK_WEBHOOK_URL" = none →
        mainStartup env kube =
          Except.error "SLACK_WEBHOOK_URL environment variable is required"
        ∧ mainExitOnStartupFailure env kube = some 1)
      ∧ (env "NAMESPACE" = none →
          ∀ cfg, mainStartup env kube = Except.ok cfg → cfg.nspace = "default") := by
  intro env kube
  constructor
  · intro h
    constructor
    · simp [mainStartup, operatorInit, h]
    · simp [mainExitOnStartupFailure, mainStartup, operatorInit, h]
  · intro h cfg hcfg
    have h2 := operatorInit_ok env kube ((env "NAMESPACE").getD "default") cfg hcfg
    rw [h2, h]
    rfl

/-- C8 witness: with an empty environment, startup fails with the
configuration error. -/
theorem C8_config_validation_witness :
    mainStartup (fun _ => none) (Except.ok ()) =
      Except.error "SLACK_WEBHOOK_URL environment variable is required" :=
  ((C8_config_validation (fun _ => none) (Except.ok ())).1 rfl).1

end PodMonitor
